import Mathlib

/-!
A shallow embedding of `pyrsolver.cpp`.

The program classifies the base of a pyramid from its side count and computes
perimeter, base area, volume, surface area and a centroid.

Modelling conventions.
* `double` is modelled by `ℝ` (exact real arithmetic); `sqrt`, `tan`, `cos`,
  `sin` and `pow(x, 2)` are `Real.sqrt`, `Real.tan`, `Real.cos`, `Real.sin`
  and `x ^ 2`. The special values of `double` (NaN, the infinities) have no
  counterpart in `ℝ`: where the source takes `sqrt` of a negative number and
  obtains NaN, `Real.sqrt` is 0. No theorem below states what
  `calculateTriangleArea` evaluates to on side lengths that violate the
  triangle inequality; those that range over such lengths relate one result to
  another.
* `int numSides` is an `Int`; where the source converts it to `double` the
  model casts it to `ℝ`, where the source compares it with an `unsigned`
  loop counter the model reduces it modulo `2 ^ 32`.
* `vector<double>` is a `List`; an access `v[i]` past the end is undefined
  behaviour in the source and is modelled as failure (`none`).
* `Options&` is passed by reference and mutated by `determineBaseShape`; the
  model returns the updated flag bundle next to the result.
-/

namespace Pyrsolver

/-! ## Data model -/

/-- The flag bundle `struct Options`; every flag is initialised to `false`. -/
structure Options where
  isTriangle : Bool := false
  isSquare : Bool := false
  isRectangle : Bool := false
  isPoly : Bool := false
  deriving DecidableEq, Repr

/-- The freshly initialised `Options options;` that `main` declares. -/
def freshOptions : Options := {}

/-- The values `solvePyramid` computes: the five quantities it prints, the
local `perimeter`, and the flag bundle as left behind in the caller. -/
structure PyramidReport where
  shape : String
  perimeter : ℝ
  baseArea : ℝ
  volume : ℝ
  surfaceArea : ℝ
  height : ℝ
  centroid : List (ℝ × ℝ)
  options : Options

/-! ## Classification -/

/-- `getSideType`: classifies a triangle by pairwise equality of `v[0]`,
`v[1]`, `v[2]`. -/
def getSideType {α : Type} [DecidableEq α] (v : List α) : Option String := do
  let v0 ← v[0]?
  let v1 ← v[1]?
  let v2 ← v[2]?
  if v0 = v1 ∧ v1 = v2 then
    pure "equilateral"
  else if v0 = v1 ∨ v1 = v2 ∨ v0 = v2 then
    pure "isosceles"
  else
    pure "scalene"

/-- `determineBaseShape`: the `switch (numSides)` with cases `3`, `4` and
`default`. In case `4` the test `v.size() == 2 && v[0] == v[1]` short-circuits,
so `v[0]` and `v[1]` are read only from a two-element vector. Returns the shape
name together with the updated flags. -/
def determineBaseShape {α : Type} [DecidableEq α]
    (numSides : Int) (options : Options) (v : List α) : String × Options :=
  if numSides = 3 then
    ("Triangle", { options with isTriangle := true })
  else if numSides = 4 then
    match v with
    | [v0, v1] =>
      if v0 = v1 then
        ("Square", { options with isSquare := true })
      else
        ("Rectangle", { options with isRectangle := true })
    | _ => ("Rectangle", { options with isRectangle := true })
  else
    ("Polygon with " ++ toString numSides ++ " sides", { options with isPoly := true })

/-! ## Formulas -/

/-- `calculateTriangleArea`: Heron's formula on `sides[0]`, `sides[1]`,
`sides[2]`. -/
noncomputable def calculateTriangleArea (sides : List ℝ) : Option ℝ := do
  let s0 ← sides[0]?
  let s1 ← sides[1]?
  let s2 ← sides[2]?
  let perimeter := s0 + s1 + s2
  let s := perimeter / 2
  pure (Real.sqrt (s * (s - s0) * (s - s1) * (s - s2)))

/-- `calculatePolygonArea`:
`0.25 * numSides * pow(sideLength, 2) * (1 / tan(PI_VAL / numSides))`. -/
noncomputable def calculatePolygonArea (numSides : Int) (sideLength : ℝ) : ℝ :=
  0.25 * (numSides : ℝ) * sideLength ^ 2 * (1 / Real.tan (Real.pi / (numSides : ℝ)))

/-- `calculateSlantHeight`: the four-way branch on the flags. -/
noncomputable def calculateSlantHeight (options : Options) (v : List ℝ)
    (numSides : Int) (height : ℝ) : Option ℝ :=
  if options.isTriangle then do
    let area ← calculateTriangleArea v
    let v0 ← v[0]?
    let baseHeight := (2.0 * area) / v0
    let baseHeight := baseHeight / 2.0
    pure (Real.sqrt (height ^ 2 + baseHeight ^ 2))
  else if options.isSquare then do
    let v0 ← v[0]?
    let baseHeight := v0 / 2.0
    pure (Real.sqrt (height ^ 2 + baseHeight ^ 2))
  else if options.isRectangle then do
    let v0 ← v[0]?
    let v1 ← v[1]?
    let baseHeight := (v0 / 2.0) + (v1 / 2.0)
    pure (Real.sqrt (height ^ 2 + baseHeight ^ 2))
  else do
    let v0 ← v[0]?
    let apothem := v0 / (2 * Real.tan (Real.pi / (numSides : ℝ)))
    pure (Real.sqrt (height ^ 2 + apothem ^ 2))

/-- `calculatePerimeter`: the four-way branch on the flags. -/
noncomputable def calculatePerimeter (options : Options) (sides : List ℝ)
    (numSides : Int) : Option ℝ :=
  if options.isTriangle then do
    let s0 ← sides[0]?
    let s1 ← sides[1]?
    let s2 ← sides[2]?
    pure (s0 + s1 + s2)
  else if options.isSquare then do
    let s0 ← sides[0]?
    pure (4 * s0)
  else if options.isRectangle then do
    let s0 ← sides[0]?
    let s1 ← sides[1]?
    pure (2 * (s0 + s1))
  else do
    let s0 ← sides[0]?
    pure ((numSides : ℝ) * s0)

/-- Number of iterations of `for (unsigned i = 0; i < numSides; ++i)`: the
`int` bound is converted to `unsigned` for the comparison. -/
def loopCount (numSides : Int) : Nat := (numSides % 2 ^ 32).toNat

/-- `calculatePolygonVertices`: vertex `i` sits at angle `i * (2π / numSides)`
on the circle of radius `sideLength` around `baseCenter`. -/
noncomputable def calculatePolygonVertices (numSides : Int) (sideLength : ℝ)
    (baseCenter : ℝ × ℝ) : List (ℝ × ℝ) :=
  let angle_increment := 2 * Real.pi / (numSides : ℝ)
  (List.range (loopCount numSides)).map fun (i : Nat) =>
    let angle := (i : ℝ) * angle_increment
    (baseCenter.1 + sideLength * Real.cos angle, baseCenter.2 + sideLength * Real.sin angle)

/-- `calculateTriangleVertices`: the closed-form equilateral layout built from
`sides[0]` alone. -/
noncomputable def calculateTriangleVertices (sides : List ℝ) (baseCenter : ℝ × ℝ) :
    Option (List (ℝ × ℝ)) := do
  let s0 ← sides[0]?
  let height := s0 * Real.sqrt 3.0 / 2.0
  pure [(baseCenter.1, baseCenter.2 + height / 3.0),
        (baseCenter.1 - s0 / 2.0, baseCenter.2 - height / 3.0),
        (baseCenter.1 + s0 / 2.0, baseCenter.2 - height / 3.0)]

/-- `calculatePolygonCentroid`: sums the coordinates of the vertices generated
around the origin with radius `sides[0]` and divides by `numSides`. -/
noncomputable def calculatePolygonCentroid (numSides : Int) (sides : List ℝ) :
    Option (List (ℝ × ℝ)) := do
  let s0 ← sides[0]?
  let vertices := calculatePolygonVertices numSides s0 (0.0, 0.0)
  let sums := vertices.foldl (fun acc vertex => (acc.1 + vertex.1, acc.2 + vertex.2)) ((0, 0) : ℝ × ℝ)
  let centroidX := sums.1 / (numSides : ℝ)
  let centroidY := sums.2 / (numSides : ℝ)
  pure [(centroidX, centroidY)]

/-! ## Orchestration -/

/-- `solvePyramid`: perimeter, base area, centroid, volume and surface area are
all computed from the flags as they are on entry; `determineBaseShape` runs
last and only then sets a flag. -/
noncomputable def solvePyramid (options : Options) (sides : List ℝ) (numSides : Int)
    (height : ℝ) : Option PyramidReport := do
  let perimeter ← calculatePerimeter options sides numSides
  let baseArea ←
    if options.isTriangle then
      calculateTriangleArea sides
    else do
      let s0 ← sides[0]?
      pure (calculatePolygonArea numSides s0)
  let centroid ← calculatePolygonCentroid numSides sides
  let volume := (1.0 / 3.0) * baseArea * height
  let surfaceArea := baseArea + (0.5 * perimeter * height)
  let classified := determineBaseShape numSides options sides
  pure { shape := classified.1, perimeter := perimeter, baseArea := baseArea,
         volume := volume, surfaceArea := surfaceArea, height := height,
         centroid := centroid, options := classified.2 }

/-- The dimension-count gate of `main`: the loop ends once
`baseDimensions.size() != numSides` is false, `numSides` being `unsigned`. -/
def mainAccepts (numSides : Int) (baseDimensions : List ℝ) : Prop :=
  baseDimensions.length = loopCount numSides

instance (numSides : Int) (baseDimensions : List ℝ) :
    Decidable (mainAccepts numSides baseDimensions) :=
  inferInstanceAs (Decidable (baseDimensions.length = loopCount numSides))

/-- Number of leading entries of the dimension vector that `calculatePerimeter`
and `solvePyramid` read under the given flags. -/
def requiredLength (options : Options) : Nat :=
  if options.isTriangle then 3
  else if options.isSquare then 1
  else if options.isRectangle then 2
  else 1

/-- Euclidean distance between two points of the plane, the measure in which
the layout claims about generated vertices are phrased. -/
noncomputable def euclideanDistance (p q : ℝ × ℝ) : ℝ :=
  Real.sqrt ((p.1 - q.1) ^ 2 + (p.2 - q.2) ^ 2)

/-- Largest value of the 32-bit `int` that carries `numSides`. -/
def intMax : Int := 2147483647

/-! ## Auxiliary facts -/

theorem tan_pi_div_three : Real.tan (Real.pi / 3) = Real.sqrt 3 := by
  rw [Real.tan_eq_sin_div_cos, Real.sin_pi_div_three, Real.cos_pi_div_three]
  ring

theorem calculatePolygonArea_three (s : ℝ) :
    calculatePolygonArea 3 s = Real.sqrt 3 / 4 * s ^ 2 := by
  have h3 : Real.sqrt 3 * Real.sqrt 3 = 3 := Real.mul_self_sqrt (by norm_num)
  have hne : Real.sqrt 3 ≠ 0 := by
    intro h0
    rw [h0] at h3
    norm_num at h3
  simp only [calculatePolygonArea, Int.cast_ofNat, tan_pi_div_three]
  field_simp
  nlinarith [h3]

theorem calculatePolygonArea_four (s : ℝ) : calculatePolygonArea 4 s = s ^ 2 := by
  simp only [calculatePolygonArea, Int.cast_ofNat, Real.tan_pi_div_four]
  norm_num

theorem calculatePerimeter_isSome (options : Options) (sides : List ℝ) (numSides : Int)
    (hlen : requiredLength options ≤ sides.length) :
    ∃ p, calculatePerimeter options sides numSides = some p := by
  obtain ⟨t, sq, re, po⟩ := options
  rcases sides with _ | ⟨a, _ | ⟨b, _ | ⟨c, rest⟩⟩⟩ <;>
    cases t <;> cases sq <;> cases re <;>
    simp [requiredLength] at hlen <;>
    simp [calculatePerimeter]

theorem calculatePolygonCentroid_isSome (numSides : Int) (sides : List ℝ)
    (hlen : 1 ≤ sides.length) :
    ∃ c, calculatePolygonCentroid numSides sides = some c := by
  cases sides with
  | nil => simp at hlen
  | cons s0 rest => simp [calculatePolygonCentroid]

theorem requiredLength_pos (options : Options) : 1 ≤ requiredLength options := by
  unfold requiredLength
  split_ifs <;> norm_num

theorem baseArea_isSome (options : Options) (sides : List ℝ) (numSides : Int)
    (hlen : requiredLength options ≤ sides.length) :
    ∃ a, (if options.isTriangle then calculateTriangleArea sides
          else sides[0]?.map (calculatePolygonArea numSides)) = some a := by
  obtain ⟨t, sq, re, po⟩ := options
  rcases sides with _ | ⟨a, _ | ⟨b, _ | ⟨c, rest⟩⟩⟩ <;>
    cases t <;> cases sq <;> cases re <;>
    simp [requiredLength] at hlen <;>
    simp [calculateTriangleArea]

theorem solvePyramid_eq_some (options : Options) (sides : List ℝ) (numSides : Int)
    (height p a : ℝ) (c : List (ℝ × ℝ))
    (hp : calculatePerimeter options sides numSides = some p)
    (ha : (if options.isTriangle then calculateTriangleArea sides
           else sides[0]?.map (calculatePolygonArea numSides)) = some a)
    (hc : calculatePolygonCentroid numSides sides = some c) :
    solvePyramid options sides numSides height =
      some { shape := (determineBaseShape numSides options sides).1, perimeter := p,
             baseArea := a, volume := (1.0 / 3.0) * a * height,
             surfaceArea := a + (0.5 * p * height), height := height, centroid := c,
             options := (determineBaseShape numSides options sides).2 } := by
  unfold solvePyramid
  rw [hp, hc]
  cases hT : options.isTriangle
  · cases h0 : sides[0]? with
    | none => simp [hT, h0] at ha
    | some s0 =>
      simp [hT, h0] at ha
      simp [h0, ha]
  · simp [hT] at ha
    simp [ha]

/-- Whenever the dimension vector is long enough for the reads the flags select,
`solvePyramid` returns, and its outputs are tied to the perimeter and base area
it computed. -/
theorem solvePyramid_spec (options : Options) (sides : List ℝ) (numSides : Int) (height : ℝ)
    (hlen : requiredLength options ≤ sides.length) :
    ∃ r p, solvePyramid options sides numSides height = some r
      ∧ calculatePerimeter options sides numSides = some p
      ∧ r.perimeter = p
      ∧ (if options.isTriangle then calculateTriangleArea sides
           else sides[0]?.map (calculatePolygonArea numSides)) = some r.baseArea
      ∧ r.volume = (1.0 / 3.0) * r.baseArea * height
      ∧ r.surfaceArea = r.baseArea + (0.5 * p * height)
      ∧ r.shape = (determineBaseShape numSides options sides).1 := by
  obtain ⟨p, hp⟩ := calculatePerimeter_isSome options sides numSides hlen
  obtain ⟨a, ha⟩ := baseArea_isSome options sides numSides hlen
  obtain ⟨c, hc⟩ := calculatePolygonCentroid_isSome numSides sides
    (le_trans (requiredLength_pos options) hlen)
  exact ⟨_, p, solvePyramid_eq_some options sides numSides height p a c hp ha hc,
    hp, rfl, ha, rfl, rfl, rfl⟩

/-- When the dimension vector is too short for the reads the flags select,
`solvePyramid` reads past its end. -/
theorem solvePyramid_none (options : Options) (sides : List ℝ) (numSides : Int) (height : ℝ)
    (hlen : sides.length < requiredLength options) :
    solvePyramid options sides numSides height = none := by
  have hp : calculatePerimeter options sides numSides = none := by
    obtain ⟨t, sq, re, po⟩ := options
    rcases sides with _ | ⟨a, _ | ⟨b, _ | ⟨c, rest⟩⟩⟩ <;>
      cases t <;> cases sq <;> cases re <;>
      simp [requiredLength] at hlen <;>
      first | omega | simp [calculatePerimeter]
  simp [solvePyramid, hp]

/-! ## Classification theorems -/

/-- C1: `determineBaseShape` names side count 3 "Triangle" for every dimension
list and every incoming flag bundle; names side count 4 with a two-element list
`[a, b]` "Square" when `a = b` and "Rectangle" when `a ≠ b`; and names every
other side count `n` "Polygon with n sides". -/
theorem determineBaseShape_name {α : Type} [DecidableEq α] (options : Options) (v : List α) :
    (determineBaseShape 3 options v).1 = "Triangle"
    ∧ (∀ a b : α, a = b → (determineBaseShape 4 options [a, b]).1 = "Square")
    ∧ (∀ a b : α, a ≠ b → (determineBaseShape 4 options [a, b]).1 = "Rectangle")
    ∧ (∀ n : Int, n ≠ 3 → n ≠ 4 →
        (determineBaseShape n options v).1 = "Polygon with " ++ toString n ++ " sides") := by
  refine ⟨?_, ?_, ?_, ?_⟩
  · simp [determineBaseShape]
  · intro a b hab
    simp [determineBaseShape, hab]
  · intro a b hab
    simp [determineBaseShape, hab]
  · intro n h3 h4
    simp [determineBaseShape, h3, h4]

/-- Witness for C1 on integer dimensions: `[5, 5]` is a square, `[5, 7]` a
rectangle, and side count 6 is named "Polygon with 6 sides". -/
theorem determineBaseShape_name_witness :
    (determineBaseShape 3 freshOptions [3, 4, (5 : Int)]).1 = "Triangle"
    ∧ (determineBaseShape 4 freshOptions [5, (5 : Int)]).1 = "Square"
    ∧ (determineBaseShape 4 freshOptions [5, (7 : Int)]).1 = "Rectangle"
    ∧ (determineBaseShape 6 freshOptions [3, 4, (5 : Int)]).1 = "Polygon with 6 sides" :=
  have h := determineBaseShape_name freshOptions [3, 4, (5 : Int)]
  ⟨h.1, h.2.1 5 5 rfl, h.2.2.1 5 7 (by decide), h.2.2.2 6 (by decide) (by decide)⟩

/-! ## Base area, volume and surface area -/

/-- C2: on the 3-4-5 triangle Heron's formula gives 6, yet `solvePyramid` started
from the all-false flags reports the base area `0.25 * 3 * 3 ^ 2 * cot(π/3)`,
which is `9√3/4` and differs from 6: the flag `isTriangle` is still false when
the area branch is chosen. -/
theorem solvePyramid_triangle_345_baseArea (height : ℝ) :
    calculateTriangleArea [3, 4, 5] = some 6
    ∧ ∃ r, solvePyramid freshOptions [3, 4, 5] 3 height = some r
        ∧ r.shape = "Triangle"
        ∧ r.baseArea = calculatePolygonArea 3 3
        ∧ r.baseArea = 9 * Real.sqrt 3 / 4
        ∧ r.baseArea ≠ 6 := by
  constructor
  · simp only [calculateTriangleArea, List.getElem?_cons_zero, List.getElem?_cons_succ,
      Option.bind_eq_bind, Option.some_bind, Option.pure_def]
    rw [show ((3 : ℝ) + 4 + 5) / 2 * ((3 + 4 + 5) / 2 - 3) * ((3 + 4 + 5) / 2 - 4)
          * ((3 + 4 + 5) / 2 - 5) = 6 ^ 2 by norm_num]
    rw [Real.sqrt_sq (by norm_num)]
  · obtain ⟨r, p, hr, _, _, ha, _, _, hs⟩ :=
      solvePyramid_spec freshOptions [3, 4, 5] 3 height (by decide)
    have ha3 : r.baseArea = calculatePolygonArea 3 3 := by
      simpa [freshOptions] using ha.symm
    have hval : r.baseArea = 9 * Real.sqrt 3 / 4 := by
      rw [ha3, calculatePolygonArea_three]
      ring
    refine ⟨r, hr, ?_, ha3, hval, ?_⟩
    · rw [hs]
      simp [determineBaseShape]
    · have hlt : Real.sqrt 3 < 2 := by
        rw [Real.sqrt_lt (by norm_num) (by norm_num)]
        norm_num
      rw [hval]
      intro h6
      linarith

/-- C3, as stated, fails: for the 4-sided input `(2, 3, 2, 3)` and height 1,
started from the all-false flags, `solvePyramid` names the base "Rectangle" and
reports base area 4, not the product `2 * 3`. -/
theorem solvePyramid_rectangle_area_counterexample :
    ∃ r, solvePyramid freshOptions [2, 3, 2, 3] 4 1 = some r
      ∧ r.shape = "Rectangle" ∧ r.baseArea = 4 ∧ r.baseArea ≠ 2 * 3 := by
  obtain ⟨r, p, hr, _, _, ha, _, _, hs⟩ :=
    solvePyramid_spec freshOptions [2, 3, 2, 3] 4 1 (by decide)
  have ha4 : r.baseArea = 4 := by
    have h := ha.symm
    simp only [freshOptions, Bool.false_eq_true, if_false, List.getElem?_cons_zero,
      Option.map_some', Option.some.injEq, calculatePolygonArea_four] at h
    rw [h]
    norm_num
  refine ⟨r, hr, ?_, ha4, ?_⟩
  · rw [hs]
    simp [determineBaseShape]
  · rw [ha4]
    norm_num

/-- C3, amended: for every 4-sided input whose dimension list begins with two
unequal lengths `a` and `b`, `a` positive, `solvePyramid` started from the
all-false flags names the base "Rectangle" and reports the base area
`calculatePolygonArea 4 a = a ^ 2`, the square of the first length, which is
not the product `a * b`. -/
theorem solvePyramid_rectangle_area (a b : ℝ) (rest : List ℝ) (height : ℝ)
    (hab : a ≠ b) (ha : 0 < a) :
    ∃ r, solvePyramid freshOptions (a :: b :: rest) 4 height = some r
      ∧ r.shape = "Rectangle"
      ∧ r.baseArea = calculatePolygonArea 4 a
      ∧ r.baseArea = a ^ 2
      ∧ r.baseArea ≠ a * b := by
  obtain ⟨r, p, hr, _, _, har, _, _, hs⟩ :=
    solvePyramid_spec freshOptions (a :: b :: rest) 4 height
      (by simp [requiredLength, freshOptions])
  have h4 : r.baseArea = calculatePolygonArea 4 a := by
    simpa [freshOptions] using har.symm
  have hsq : r.baseArea = a ^ 2 := by rw [h4, calculatePolygonArea_four]
  refine ⟨r, hr, ?_, h4, hsq, ?_⟩
  · rw [hs]
    cases rest with
    | nil => simp [determineBaseShape, hab]
    | cons c rest => simp [determineBaseShape]
  · rw [hsq, pow_two]
    intro h
    exact hab (mul_left_cancel₀ (ne_of_gt ha) h)

/-- Witness for the amended C3 at `(2, 3, 2, 3)`, height 1. -/
theorem solvePyramid_rectangle_area_witness :
    (2 : ℝ) ≠ 3 ∧ (0 : ℝ) < 2
    ∧ ∃ r, solvePyramid freshOptions [2, 3, 2, 3] 4 1 = some r
        ∧ r.shape = "Rectangle"
        ∧ r.baseArea = calculatePolygonArea 4 2
        ∧ r.baseArea = 2 ^ 2
        ∧ r.baseArea ≠ 2 * 3 :=
  ⟨by norm_num, by norm_num,
    solvePyramid_rectangle_area 2 3 [2, 3] 1 (by norm_num) (by norm_num)⟩

/-- C4: for every side length `a` and height, `solvePyramid` on side count 4
with dimensions `(a, a)`, the flag `isTriangle` being off as it is on every
4-sided run, names the base "Square", reports the base area `a ^ 2` exactly,
and the volume `a ^ 2 * height / 3`. -/
theorem solvePyramid_square (options : Options) (a height : ℝ)
    (hT : options.isTriangle = false) :
    ∃ r, solvePyramid options [a, a] 4 height = some r
      ∧ r.shape = "Square"
      ∧ r.baseArea = a ^ 2
      ∧ r.volume = a ^ 2 * height / 3 := by
  have hlen : requiredLength options ≤ [a, a].length := by
    obtain ⟨t, sq, re, po⟩ := options
    simp only at hT
    subst hT
    cases sq <;> cases re <;> simp [requiredLength]
  obtain ⟨r, p, hr, _, _, har, hv, _, hs⟩ := solvePyramid_spec options [a, a] 4 height hlen
  have hsq : r.baseArea = a ^ 2 := by
    have h := har.symm
    simp only [hT, Bool.false_eq_true, if_false, List.getElem?_cons_zero, Option.map_some',
      Option.some.injEq] at h
    rw [h, calculatePolygonArea_four]
  refine ⟨r, hr, ?_, hsq, ?_⟩
  · rw [hs]
    simp [determineBaseShape]
  · rw [hv, hsq]
    norm_num
    ring

/-- Witness for C4: dimensions `(5, 5)` and height 10 give base area 25 and
volume `250 / 3`. -/
theorem solvePyramid_square_witness :
    ∃ r, solvePyramid freshOptions [5, 5] 4 10 = some r
      ∧ r.shape = "Square" ∧ r.baseArea = 25 ∧ r.volume = 250 / 3 := by
  obtain ⟨r, hr, hs, ha, hv⟩ := solvePyramid_square freshOptions 5 10 rfl
  refine ⟨r, hr, hs, ?_, ?_⟩
  · rw [ha]
    norm_num
  · rw [hv]
    norm_num

/-- C5: on every input whose dimension vector covers the reads the flags
select, `solvePyramid` returns, and the volume it computed equals the base area
it computed times the height divided by 3. -/
theorem solvePyramid_volume (options : Options) (sides : List ℝ) (numSides : Int)
    (height : ℝ) (hlen : requiredLength options ≤ sides.length) :
    ∃ r, solvePyramid options sides numSides height = some r
      ∧ r.volume = r.baseArea * height / 3 := by
  obtain ⟨r, p, hr, _, _, _, hv, _, _⟩ := solvePyramid_spec options sides numSides height hlen
  refine ⟨r, hr, ?_⟩
  rw [hv]
  norm_num
  ring

/-- Witness for C5: a hexagonal run with one dimension, side 3 and height 5. -/
theorem solvePyramid_volume_witness :
    requiredLength freshOptions ≤ [(3 : ℝ)].length
    ∧ ∃ r, solvePyramid freshOptions [3] 6 5 = some r
        ∧ r.volume = r.baseArea * 5 / 3 :=
  ⟨by decide, solvePyramid_volume freshOptions [3] 6 5 (by decide)⟩

/-- C6: on every input whose dimension vector covers the reads the flags
select, the surface area `solvePyramid` computed equals
`baseArea + 0.5 * perimeter * height`, the perimeter being what
`calculatePerimeter` returns for the flags passed in. The lateral term uses the
height and not the slant height: on `(2, 2, 2, 2)` with side count 4 and height
1 the reported surface area is 8, while `calculateSlantHeight` gives `√2` and
`baseArea + 0.5 * perimeter * √2` is a different number. -/
theorem solvePyramid_surfaceArea :
    (∀ (options : Options) (sides : List ℝ) (numSides : Int) (height : ℝ),
      requiredLength options ≤ sides.length →
      ∃ r p, solvePyramid options sides numSides height = some r
        ∧ calculatePerimeter options sides numSides = some p
        ∧ r.surfaceArea = r.baseArea + 0.5 * p * height)
    ∧ (∃ r p l, solvePyramid freshOptions [2, 2, 2, 2] 4 1 = some r
        ∧ calculatePerimeter freshOptions [2, 2, 2, 2] 4 = some p
        ∧ calculateSlantHeight freshOptions [2, 2, 2, 2] 4 1 = some l
        ∧ r.surfaceArea = 8
        ∧ l = Real.sqrt 2
        ∧ r.surfaceArea ≠ r.baseArea + 0.5 * p * l) := by
  constructor
  · intro options sides numSides height hlen
    obtain ⟨r, p, hr, hp, _, _, _, hsa, _⟩ :=
      solvePyramid_spec options sides numSides height hlen
    exact ⟨r, p, hr, hp, hsa⟩
  · obtain ⟨r, p, hr, hp, _, har, _, hsa, _⟩ :=
      solvePyramid_spec freshOptions [2, 2, 2, 2] 4 1 (by decide)
    have hp8 : p = 8 := by
      have h := hp.symm
      simp [calculatePerimeter, freshOptions] at h
      rw [h]
      norm_num
    have ha4 : r.baseArea = 4 := by
      have h := har.symm
      simp only [freshOptions, Bool.false_eq_true, if_false, List.getElem?_cons_zero,
        Option.map_some', Option.some.injEq, calculatePolygonArea_four] at h
      rw [h]
      norm_num
    have hl : calculateSlantHeight freshOptions [2, 2, 2, 2] 4 1 = some (Real.sqrt 2) := by
      simp only [calculateSlantHeight, freshOptions, Bool.false_eq_true, if_false,
        List.getElem?_cons_zero, Option.bind_eq_bind, Option.some_bind, Option.pure_def,
        Int.cast_ofNat, Real.tan_pi_div_four]
      norm_num
    have hs8 : r.surfaceArea = 8 := by
      rw [hsa, ha4, hp8]
      norm_num
    refine ⟨r, p, Real.sqrt 2, hr, hp, hl, hs8, rfl, ?_⟩
    rw [hs8, ha4, hp8]
    intro h
    have h1 : Real.sqrt 2 = 1 := by linarith
    have h2 : Real.sqrt 2 * Real.sqrt 2 = 2 := Real.mul_self_sqrt (by norm_num)
    rw [h1] at h2
    norm_num at h2

/-- Witness for C6: the run `(2, 2, 2, 2)`, side count 4, height 1. -/
theorem solvePyramid_surfaceArea_witness :
    requiredLength freshOptions ≤ [(2 : ℝ), 2, 2, 2].length
    ∧ ∃ r p, solvePyramid freshOptions [2, 2, 2, 2] 4 1 = some r
        ∧ calculatePerimeter freshOptions [2, 2, 2, 2] 4 = some p
        ∧ r.surfaceArea = r.baseArea + 0.5 * p * 1 :=
  ⟨by decide, solvePyramid_surfaceArea.1 freshOptions [2, 2, 2, 2] 4 1 (by decide)⟩

/-! ## Perimeter -/

/-- C7: `calculatePerimeter` returns `a + b + c` when `isTriangle` is set,
`4 * a` when `isSquare` is set and `isTriangle` is not, `2 * (a + b)` when
`isRectangle` is set and the two flags before it are not, and `n * a` when none
of the three is set. -/
theorem calculatePerimeter_by_shape (options : Options) (numSides : Int)
    (a b c : ℝ) (rest : List ℝ) :
    (options.isTriangle = true →
      calculatePerimeter options (a :: b :: c :: rest) numSides = some (a + b + c))
    ∧ (options.isTriangle = false → options.isSquare = true →
      calculatePerimeter options (a :: rest) numSides = some (4 * a))
    ∧ (options.isTriangle = false → options.isSquare = false → options.isRectangle = true →
      calculatePerimeter options (a :: b :: rest) numSides = some (2 * (a + b)))
    ∧ (options.isTriangle = false → options.isSquare = false → options.isRectangle = false →
      calculatePerimeter options (a :: rest) numSides = some ((numSides : ℝ) * a)) := by
  refine ⟨?_, ?_, ?_, ?_⟩
  · intro hT
    simp [calculatePerimeter, hT]
  · intro hT hS
    simp [calculatePerimeter, hT, hS]
  · intro hT hS hR
    simp [calculatePerimeter, hT, hS, hR]
  · intro hT hS hR
    simp [calculatePerimeter, hT, hS, hR]

/-- Witness for C7: a 3-4-5 triangle has perimeter 12, a square of side 5 has
20, a 5 by 7 rectangle has 24, a hexagon of side 3 has 18. -/
theorem calculatePerimeter_by_shape_witness :
    calculatePerimeter { isTriangle := true } [3, 4, 5] 3 = some (3 + 4 + 5)
    ∧ calculatePerimeter { isSquare := true } [5, 5] 4 = some (4 * 5)
    ∧ calculatePerimeter { isRectangle := true } [5, 7] 4 = some (2 * (5 + 7))
    ∧ calculatePerimeter freshOptions [3] 6 = some (((6 : Int) : ℝ) * 3) :=
  ⟨(calculatePerimeter_by_shape { isTriangle := true } 3 3 4 5 []).1 rfl,
   (calculatePerimeter_by_shape { isSquare := true } 4 5 5 5 [5]).2.1 rfl rfl,
   (calculatePerimeter_by_shape { isRectangle := true } 4 5 7 7 []).2.2.1 rfl rfl rfl,
   (calculatePerimeter_by_shape freshOptions 6 3 3 3 []).2.2.2 rfl rfl rfl⟩

/-- C8: for every flag setting, side count, factor `k` (positive or not) and
dimension list long enough for the branch the flags select, `calculatePerimeter`
returns on both the list and the list with every entry multiplied by `k`, and
the second result is `k` times the first. -/
theorem calculatePerimeter_homogeneous (options : Options) (numSides : Int)
    (v : List ℝ) (k : ℝ) (hlen : requiredLength options ≤ v.length) :
    ∃ p, calculatePerimeter options v numSides = some p
      ∧ calculatePerimeter options (v.map fun x => k * x) numSides = some (k * p) := by
  obtain ⟨t, sq, re, po⟩ := options
  rcases v with _ | ⟨a, _ | ⟨b, _ | ⟨c, rest⟩⟩⟩ <;>
    cases t <;> cases sq <;> cases re <;>
    simp [requiredLength] at hlen <;>
    simp [calculatePerimeter] <;>
    ring

/-- Witness for C8: the rectangle `(5, 7)` scaled by 2. -/
theorem calculatePerimeter_homogeneous_witness :
    requiredLength { isRectangle := true } ≤ [(5 : ℝ), 7].length
    ∧ ∃ p, calculatePerimeter { isRectangle := true } [5, 7] 4 = some p
        ∧ calculatePerimeter { isRectangle := true } ([5, 7].map fun x => 2 * x) 4
            = some (2 * p) :=
  ⟨by decide, calculatePerimeter_homogeneous { isRectangle := true } 4 [5, 7] 2 (by decide)⟩

/-! ## Heron's formula -/

/-- C9: `calculateTriangleArea` returns the same value on all six orderings of
three side lengths. -/
theorem calculateTriangleArea_perm (a b c : ℝ) :
    ∃ area, calculateTriangleArea [a, b, c] = some area
      ∧ calculateTriangleArea [a, c, b] = some area
      ∧ calculateTriangleArea [b, a, c] = some area
      ∧ calculateTriangleArea [b, c, a] = some area
      ∧ calculateTriangleArea [c, a, b] = some area
      ∧ calculateTriangleArea [c, b, a] = some area := by
  refine ⟨Real.sqrt ((a + b + c) / 2 * ((a + b + c) / 2 - a) * ((a + b + c) / 2 - b)
    * ((a + b + c) / 2 - c)), ?_, ?_, ?_, ?_, ?_, ?_⟩ <;>
    simp only [calculateTriangleArea, List.getElem?_cons_zero, List.getElem?_cons_succ,
      Option.bind_eq_bind, Option.some_bind, Option.pure_def, Option.some.injEq] <;>
    congr 1 <;>
    ring

/-- The quantity `s (s - a) (s - b) (s - c)` under the square root of Heron's
formula is strictly negative for three positive lengths one of which strictly
exceeds the sum of the other two. What `sqrt` returns on such an argument is a
matter of floating point and is not expressed in this development. -/
theorem heron_radicand_neg (a b c : ℝ) (ha : 0 < a) (hb : 0 < b) (hc : 0 < c)
    (hviol : b + c < a ∨ a + c < b ∨ a + b < c) :
    (a + b + c) / 2 * ((a + b + c) / 2 - a) * ((a + b + c) / 2 - b)
      * ((a + b + c) / 2 - c) < 0 := by
  have hs : 0 < (a + b + c) / 2 := by linarith
  rcases hviol with h | h | h
  · have h1 : (a + b + c) / 2 - a < 0 := by linarith
    have h2 : 0 < (a + b + c) / 2 - b := by linarith
    have h3 : 0 < (a + b + c) / 2 - c := by linarith
    exact mul_neg_of_neg_of_pos (mul_neg_of_neg_of_pos (mul_neg_of_pos_of_neg hs h1) h2) h3
  · have h1 : 0 < (a + b + c) / 2 - a := by linarith
    have h2 : (a + b + c) / 2 - b < 0 := by linarith
    have h3 : 0 < (a + b + c) / 2 - c := by linarith
    exact mul_neg_of_neg_of_pos (mul_neg_of_pos_of_neg (mul_pos hs h1) h2) h3
  · have h1 : 0 < (a + b + c) / 2 - a := by linarith
    have h2 : 0 < (a + b + c) / 2 - b := by linarith
    have h3 : (a + b + c) / 2 - c < 0 := by linarith
    exact mul_neg_of_pos_of_neg (mul_pos (mul_pos hs h1) h2) h3

/-! ## Triangle side classification -/

/-- C11: for every three side lengths `getSideType` returns "equilateral"
exactly when all three are equal, "isosceles" exactly when at least two are
equal but not all three, and "scalene" exactly when they are pairwise
distinct. -/
theorem getSideType_iff {α : Type} [DecidableEq α] (a b c : α) :
    (getSideType [a, b, c] = some "equilateral" ↔ (a = b ∧ b = c))
    ∧ (getSideType [a, b, c] = some "isosceles"
        ↔ ((a = b ∨ b = c ∨ a = c) ∧ ¬ (a = b ∧ b = c)))
    ∧ (getSideType [a, b, c] = some "scalene" ↔ (a ≠ b ∧ b ≠ c ∧ a ≠ c)) := by
  have hei : ("equilateral" : String) ≠ "isosceles" := by decide
  have hes : ("equilateral" : String) ≠ "scalene" := by decide
  have his : ("isosceles" : String) ≠ "scalene" := by decide
  have hgst : getSideType [a, b, c] =
      if a = b ∧ b = c then some "equilateral"
      else if a = b ∨ b = c ∨ a = c then some "isosceles"
      else some "scalene" := by
    simp only [getSideType, List.getElem?_cons_zero, List.getElem?_cons_succ,
      Option.bind_eq_bind, Option.some_bind, Option.pure_def]
  rw [hgst]
  by_cases h1 : a = b ∧ b = c
  · obtain ⟨hab, hbc⟩ := h1
    subst hab
    subst hbc
    simp [hei, hes]
  · by_cases h2 : a = b ∨ b = c ∨ a = c
    · rw [if_neg h1, if_pos h2]
      simp only [Option.some.injEq, hei.symm, his, false_iff, true_iff, iff_false]
      refine ⟨h1, ⟨h2, h1⟩, ?_⟩
      rintro ⟨hab, hbc, hac⟩
      rcases h2 with h | h | h
      · exact hab h
      · exact hbc h
      · exact hac h
    · rw [if_neg h1, if_neg h2]
      simp only [Option.some.injEq, hes.symm, his.symm, false_iff, true_iff, iff_false]
      refine ⟨h1, fun h => h2 h.1, ?_⟩
      exact ⟨fun h => h2 (Or.inl h), fun h => h2 (Or.inr (Or.inl h)),
        fun h => h2 (Or.inr (Or.inr h))⟩

/-- Witness for C11 on integer sides: `(6, 6, 6)` is equilateral, `(5, 7, 5)`
isosceles, `(3, 4, 5)` scalene. -/
theorem getSideType_iff_witness :
    getSideType [6, 6, (6 : Int)] = some "equilateral"
    ∧ getSideType [5, 7, (5 : Int)] = some "isosceles"
    ∧ getSideType [3, 4, (5 : Int)] = some "scalene" :=
  ⟨(getSideType_iff (6 : Int) 6 6).1.2 (by decide),
   (getSideType_iff (5 : Int) 7 5).2.1.2 (by decide),
   (getSideType_iff (3 : Int) 4 5).2.2.2 (by decide)⟩

/-! ## Slant height -/

/-- C15: `calculateSlantHeight` returns `sqrt (height ^ 2 + d ^ 2)` where `d` is
the Heron area divided by `v[0]` when `isTriangle` is set, `v[0] / 2` when
`isSquare` is set and `isTriangle` is not, `v[0] / 2 + v[1] / 2` when
`isRectangle` is set and the two flags before it are not, and the apothem
`v[0] / (2 * tan (π / n))` when none of the three is set. -/
theorem calculateSlantHeight_by_shape (options : Options) (numSides : Int)
    (height a b c : ℝ) (rest : List ℝ) :
    (options.isTriangle = true →
      ∃ area, calculateTriangleArea (a :: b :: c :: rest) = some area
        ∧ calculateSlantHeight options (a :: b :: c :: rest) numSides height
            = some (Real.sqrt (height ^ 2 + (area / a) ^ 2)))
    ∧ (options.isTriangle = false → options.isSquare = true →
      calculateSlantHeight options (a :: rest) numSides height
        = some (Real.sqrt (height ^ 2 + (a / 2) ^ 2)))
    ∧ (options.isTriangle = false → options.isSquare = false → options.isRectangle = true →
      calculateSlantHeight options (a :: b :: rest) numSides height
        = some (Real.sqrt (height ^ 2 + (a / 2 + b / 2) ^ 2)))
    ∧ (options.isTriangle = false → options.isSquare = false → options.isRectangle = false →
      calculateSlantHeight options (a :: rest) numSides height
        = some (Real.sqrt (height ^ 2
            + (a / (2 * Real.tan (Real.pi / (numSides : ℝ)))) ^ 2))) := by
  refine ⟨?_, ?_, ?_, ?_⟩
  · intro hT
    refine ⟨Real.sqrt ((a + b + c) / 2 * ((a + b + c) / 2 - a) * ((a + b + c) / 2 - b)
      * ((a + b + c) / 2 - c)), ?_, ?_⟩
    · simp only [calculateTriangleArea, List.getElem?_cons_zero, List.getElem?_cons_succ,
        Option.bind_eq_bind, Option.some_bind, Option.pure_def]
    · simp only [calculateSlantHeight, hT, if_true, calculateTriangleArea,
        List.getElem?_cons_zero, List.getElem?_cons_succ, Option.bind_eq_bind,
        Option.some_bind, Option.pure_def, Option.some.injEq]
      congr 2
      norm_num
      ring
  · intro hT hS
    simp only [calculateSlantHeight, hT, hS, Bool.false_eq_true, if_false, if_true,
      List.getElem?_cons_zero, Option.bind_eq_bind, Option.some_bind, Option.pure_def,
      Option.some.injEq]
    norm_num
  · intro hT hS hR
    simp only [calculateSlantHeight, hT, hS, hR, Bool.false_eq_true, if_false, if_true,
      List.getElem?_cons_zero, List.getElem?_cons_succ, Option.bind_eq_bind,
      Option.some_bind, Option.pure_def, Option.some.injEq]
    norm_num
  · intro hT hS hR
    simp only [calculateSlantHeight, hT, hS, hR, Bool.false_eq_true, if_false,
      List.getElem?_cons_zero, Option.bind_eq_bind, Option.some_bind, Option.pure_def]

/-- Witness for C15: a square of side 6 under height 4 has slant height
`sqrt (4 ^ 2 + (6 / 2) ^ 2)`, and a 6 by 8 rectangle `sqrt (4 ^ 2 + (6 / 2 + 8 / 2) ^ 2)`. -/
theorem calculateSlantHeight_by_shape_witness :
    calculateSlantHeight { isSquare := true } [6, 6] 4 4
        = some (Real.sqrt (4 ^ 2 + (6 / 2) ^ 2))
    ∧ calculateSlantHeight { isRectangle := true } [6, 8] 4 4
        = some (Real.sqrt (4 ^ 2 + (6 / 2 + 8 / 2) ^ 2)) :=
  ⟨(calculateSlantHeight_by_shape { isSquare := true } 4 4 6 6 6 [6]).2.1 rfl rfl,
   (calculateSlantHeight_by_shape { isRectangle := true } 4 4 6 8 8 []).2.2.1 rfl rfl rfl⟩

/-! ## The input gate and the flags -/

/-- C18: for every dimension list that `main` accepts for side count 4 (its
length equals the side count), `determineBaseShape` returns "Rectangle", hence
never "Square", whatever the four dimensions are. -/
theorem determineBaseShape_gate_four (options : Options) (v : List ℝ)
    (hgate : mainAccepts 4 v) :
    (determineBaseShape 4 options v).1 = "Rectangle"
    ∧ (determineBaseShape 4 options v).1 ≠ "Square" := by
  have hlen : v.length = 4 := by
    have h4 : loopCount 4 = 4 := by decide
    rw [mainAccepts, h4] at hgate
    exact hgate
  have hname : (determineBaseShape 4 options v).1 = "Rectangle" := by
    rcases v with _ | ⟨a, _ | ⟨b, _ | ⟨c, rest⟩⟩⟩
    · simp at hlen
    · simp at hlen
    · simp at hlen
    · simp [determineBaseShape]
  refine ⟨hname, ?_⟩
  rw [hname]
  decide

/-- Witness for C18: four equal dimensions `(5, 5, 5, 5)`. -/
theorem determineBaseShape_gate_four_witness :
    mainAccepts 4 [5, 5, 5, 5]
    ∧ (determineBaseShape 4 freshOptions [(5 : ℝ), 5, 5, 5]).1 = "Rectangle"
    ∧ (determineBaseShape 4 freshOptions [(5 : ℝ), 5, 5, 5]).1 ≠ "Square" :=
  ⟨by decide, determineBaseShape_gate_four freshOptions [5, 5, 5, 5] (by decide)⟩

/-- C20: for every side count, dimension list and incoming flag bundle,
`determineBaseShape` sets the one flag matching the name it returns and leaves
the other three as they were; applied to the all-false bundle it therefore
leaves exactly that one flag true. -/
theorem determineBaseShape_flags {α : Type} [DecidableEq α] (numSides : Int)
    (options : Options) (v : List α) :
    (((determineBaseShape numSides options v).1 = "Triangle"
        ∧ (determineBaseShape numSides options v).2 = { options with isTriangle := true }
        ∧ (determineBaseShape numSides freshOptions v).2
            = { isTriangle := true, isSquare := false, isRectangle := false, isPoly := false })
      ∨ ((determineBaseShape numSides options v).1 = "Square"
        ∧ (determineBaseShape numSides options v).2 = { options with isSquare := true }
        ∧ (determineBaseShape numSides freshOptions v).2
            = { isTriangle := false, isSquare := true, isRectangle := false, isPoly := false })
      ∨ ((determineBaseShape numSides options v).1 = "Rectangle"
        ∧ (determineBaseShape numSides options v).2 = { options with isRectangle := true }
        ∧ (determineBaseShape numSides freshOptions v).2
            = { isTriangle := false, isSquare := false, isRectangle := true, isPoly := false })
      ∨ ((determineBaseShape numSides options v).1
            = "Polygon with " ++ toString numSides ++ " sides"
        ∧ (determineBaseShape numSides options v).2 = { options with isPoly := true }
        ∧ (determineBaseShape numSides freshOptions v).2
            = { isTriangle := false, isSquare := false, isRectangle := false, isPoly := true }))
    ∧ (determineBaseShape numSides freshOptions v).1 = (determineBaseShape numSides options v).1 := by
  unfold determineBaseShape
  by_cases h3 : numSides = 3
  · simp [h3, freshOptions]
  · by_cases h4 : numSides = 4
    · rw [if_neg h3, if_pos h4, if_neg h3, if_pos h4]
      rcases v with _ | ⟨a, _ | ⟨b, _ | ⟨c, rest⟩⟩⟩
      · simp [freshOptions]
      · simp [freshOptions]
      · by_cases hab : a = b
        · simp [hab, freshOptions]
        · simp [hab, freshOptions]
      · simp [freshOptions]
    · simp [h3, h4, freshOptions]

/-! ## Runs started from the all-false flags -/

theorem calculatePolygonCentroid_cons (numSides : Int) (s0 : ℝ) (rest : List ℝ) :
    calculatePolygonCentroid numSides (s0 :: rest) = calculatePolygonCentroid numSides [s0] := by
  simp [calculatePolygonCentroid]

/-- From the all-false flags every computed quantity except the shape name is a
function of the side count, the height and the first dimension alone. -/
theorem solvePyramid_fresh (s0 : ℝ) (rest : List ℝ) (numSides : Int) (height : ℝ) :
    ∃ c, calculatePolygonCentroid numSides [s0] = some c
      ∧ solvePyramid freshOptions (s0 :: rest) numSides height =
        some { shape := (determineBaseShape numSides freshOptions (s0 :: rest)).1,
               perimeter := (numSides : ℝ) * s0,
               baseArea := calculatePolygonArea numSides s0,
               volume := (1.0 / 3.0) * calculatePolygonArea numSides s0 * height,
               surfaceArea := calculatePolygonArea numSides s0
                 + (0.5 * ((numSides : ℝ) * s0) * height),
               height := height, centroid := c,
               options := (determineBaseShape numSides freshOptions (s0 :: rest)).2 } := by
  obtain ⟨c, hc⟩ := calculatePolygonCentroid_isSome numSides [s0] (by simp)
  refine ⟨c, hc, ?_⟩
  apply solvePyramid_eq_some
  · simp [calculatePerimeter, freshOptions]
  · simp [freshOptions]
  · rw [calculatePolygonCentroid_cons, hc]

theorem tan_pi_div_six_inv : 1 / Real.tan (Real.pi / 6) = Real.sqrt 3 := by
  rw [Real.tan_pi_div_six]
  simp

/-- C13: for every side length `a` and height, `solvePyramid` on side count 3
with dimensions `(a, a, a)`, started from the all-false flags, names the base
"Triangle" and reports base area `(√3 / 4) * a ^ 2` and volume
`(√3 / 12) * a ^ 2 * height`. -/
theorem solvePyramid_equilateral (a height : ℝ) :
    ∃ r, solvePyramid freshOptions [a, a, a] 3 height = some r
      ∧ r.shape = "Triangle"
      ∧ r.baseArea = Real.sqrt 3 / 4 * a ^ 2
      ∧ r.volume = Real.sqrt 3 / 12 * a ^ 2 * height := by
  obtain ⟨c, _, hr⟩ := solvePyramid_fresh a [a, a] 3 height
  refine ⟨_, hr, ?_, ?_, ?_⟩
  · simp [determineBaseShape]
  · simp only [calculatePolygonArea_three]
  · show (1.0 / 3.0 : ℝ) * calculatePolygonArea 3 a * height = _
    rw [calculatePolygonArea_three, show (1.0 / 3.0 : ℝ) = 1 / 3 by norm_num]
    ring

/-- Witness for C13: sides `(6, 6, 6)` and height 4 give base area `9 √3` and
volume `12 √3`. -/
theorem solvePyramid_equilateral_witness :
    ∃ r, solvePyramid freshOptions [6, 6, 6] 3 4 = some r
      ∧ r.shape = "Triangle"
      ∧ r.baseArea = 9 * Real.sqrt 3
      ∧ r.volume = 12 * Real.sqrt 3 := by
  obtain ⟨r, hr, hs, ha, hv⟩ := solvePyramid_equilateral 6 4
  refine ⟨r, hr, hs, ?_, ?_⟩
  · rw [ha]
    ring
  · rw [hv]
    ring

/-- C14: for every side length `s` and height, `solvePyramid` on side count 6
with first dimension `s`, started from the all-false flags, computes the base
area `0.25 * 6 * s ^ 2 * cot (π / 6)`, which equals `(3 √3 / 2) * s ^ 2`, and
the perimeter `6 * s`. -/
theorem solvePyramid_hexagon (s : ℝ) (rest : List ℝ) (height : ℝ) :
    ∃ r, solvePyramid freshOptions (s :: rest) 6 height = some r
      ∧ r.shape = "Polygon with 6 sides"
      ∧ r.baseArea = 0.25 * 6 * s ^ 2 * (1 / Real.tan (Real.pi / 6))
      ∧ r.baseArea = 3 * Real.sqrt 3 / 2 * s ^ 2
      ∧ r.perimeter = 6 * s := by
  obtain ⟨c, _, hr⟩ := solvePyramid_fresh s rest 6 height
  refine ⟨_, hr, ?_, ?_, ?_, ?_⟩
  · have h63 : (6 : Int) ≠ 3 := by decide
    have h64 : (6 : Int) ≠ 4 := by decide
    simp only [determineBaseShape, if_neg h63, if_neg h64]
    rfl
  · simp only [calculatePolygonArea, Int.cast_ofNat]
  · simp only [calculatePolygonArea, Int.cast_ofNat, tan_pi_div_six_inv]
    norm_num
    ring
  · simp only [Int.cast_ofNat]

/-- Witness for C14: side 3 and height 5 give base area `13.5 √3` and
perimeter 18. -/
theorem solvePyramid_hexagon_witness :
    ∃ r, solvePyramid freshOptions [3] 6 5 = some r
      ∧ r.baseArea = 13.5 * Real.sqrt 3
      ∧ r.perimeter = 18 := by
  obtain ⟨r, hr, _, _, ha, hp⟩ := solvePyramid_hexagon 3 [] 5
  refine ⟨r, hr, ?_, ?_⟩
  · rw [ha]
    norm_num
    ring
  · rw [hp]
    norm_num

/-- C19: started from the all-false flags, two runs of `solvePyramid` with the
same side count, the same height and the same first dimension both return, and
they report the same base area, volume, surface area and centroid, whatever the
remaining dimensions are. -/
theorem solvePyramid_first_dimension_only (numSides : Int) (height s0 : ℝ)
    (rest1 rest2 : List ℝ) :
    ∃ r1 r2, solvePyramid freshOptions (s0 :: rest1) numSides height = some r1
      ∧ solvePyramid freshOptions (s0 :: rest2) numSides height = some r2
      ∧ r1.baseArea = r2.baseArea
      ∧ r1.volume = r2.volume
      ∧ r1.surfaceArea = r2.surfaceArea
      ∧ r1.centroid = r2.centroid := by
  obtain ⟨c1, hc1, hr1⟩ := solvePyramid_fresh s0 rest1 numSides height
  obtain ⟨c2, hc2, hr2⟩ := solvePyramid_fresh s0 rest2 numSides height
  have hc : c1 = c2 := by
    rw [hc1] at hc2
    exact Option.some.inj hc2
  refine ⟨_, _, hr1, hr2, rfl, rfl, rfl, hc⟩

/-- Witness for C19: the 3-4-5 triangle and the 3-3-3 triangle under height 4. -/
theorem solvePyramid_first_dimension_only_witness :
    ∃ r1 r2, solvePyramid freshOptions [3, 4, 5] 3 4 = some r1
      ∧ solvePyramid freshOptions [3, 3, 3] 3 4 = some r2
      ∧ r1.baseArea = r2.baseArea
      ∧ r1.volume = r2.volume
      ∧ r1.surfaceArea = r2.surfaceArea
      ∧ r1.centroid = r2.centroid :=
  solvePyramid_first_dimension_only 3 4 3 [4, 5] [3, 3]

/-! ## Vertices and centroid -/

theorem loopCount_of_int (numSides : Int) (h0 : 0 ≤ numSides) (hmax : numSides ≤ intMax) :
    loopCount numSides = numSides.toNat := by
  unfold intMax at hmax
  unfold loopCount
  rw [Int.emod_eq_of_lt h0 (by omega)]

theorem foldl_pair_sum (f : ℕ → ℝ × ℝ) (k : ℕ) :
    ((List.range k).map f).foldl (fun acc vertex => (acc.1 + vertex.1, acc.2 + vertex.2))
        ((0, 0) : ℝ × ℝ)
      = (∑ i in Finset.range k, (f i).1, ∑ i in Finset.range k, (f i).2) := by
  induction k with
  | zero => simp
  | succ k ih =>
    rw [List.range_succ, List.map_append, List.foldl_append, ih,
      Finset.sum_range_succ, Finset.sum_range_succ]
    simp

theorem sum_cos_sin_roots (k : ℕ) (hk : 1 < k) :
    ∑ i in Finset.range k, Real.cos ((i : ℝ) * (2 * Real.pi / (k : ℝ))) = 0
    ∧ ∑ i in Finset.range k, Real.sin ((i : ℝ) * (2 * Real.pi / (k : ℝ))) = 0 := by
  have hroot := Complex.isPrimitiveRoot_exp k (by omega)
  have hsum := hroot.geom_sum_eq_zero hk
  have hterm : ∀ i : ℕ, Complex.exp (2 * Real.pi * Complex.I / k) ^ i
      = ((Real.cos ((i : ℝ) * (2 * Real.pi / (k : ℝ))) : ℝ) : ℂ)
        + ((Real.sin ((i : ℝ) * (2 * Real.pi / (k : ℝ))) : ℝ) : ℂ) * Complex.I := by
    intro i
    rw [← Complex.exp_nat_mul, Complex.ofReal_cos, Complex.ofReal_sin, ← Complex.exp_mul_I]
    congr 1
    push_cast
    ring
  simp only [hterm] at hsum
  have hre := congrArg Complex.re hsum
  have him := congrArg Complex.im hsum
  simp only [Complex.re_sum, Complex.im_sum, Complex.add_re, Complex.add_im,
    Complex.ofReal_re, Complex.ofReal_im, Complex.mul_re, Complex.mul_im, Complex.I_re,
    Complex.I_im, mul_zero, mul_one, sub_zero, zero_add, add_zero, Complex.zero_re,
    Complex.zero_im, sub_self] at hre him
  exact ⟨hre, him⟩

/-- C12: for every side count `n` with `3 ≤ n` (and within the range of `int`)
and every side length, `calculatePolygonCentroid` returns exactly the point
`(0, 0)`. -/
theorem calculatePolygonCentroid_origin (numSides : Int) (s0 : ℝ) (rest : List ℝ)
    (h3 : 3 ≤ numSides) (hmax : numSides ≤ intMax) :
    calculatePolygonCentroid numSides (s0 :: rest) = some [(0, 0)] := by
  obtain ⟨k, rfl⟩ := Int.eq_ofNat_of_zero_le (by omega : 0 ≤ numSides)
  have hk : 1 < k := by omega
  obtain ⟨hcos, hsin⟩ := sum_cos_sin_roots k hk
  have hcount : loopCount (k : Int) = k := by
    rw [loopCount_of_int (k : Int) (by omega) hmax, Int.toNat_ofNat]
  simp only [calculatePolygonCentroid, calculatePolygonVertices, List.getElem?_cons_zero,
    Option.bind_eq_bind, Option.some_bind, Option.pure_def, hcount]
  rw [foldl_pair_sum]
  simp only [Int.cast_natCast, Finset.sum_add_distrib, ← Finset.mul_sum, hcos, hsin]
  norm_num

/-- Witness for C12: a hexagon of side 3. -/
theorem calculatePolygonCentroid_origin_witness :
    (3 : Int) ≤ 6 ∧ (6 : Int) ≤ intMax
    ∧ calculatePolygonCentroid 6 [3] = some [(0, 0)] :=
  ⟨by decide, by decide, calculatePolygonCentroid_origin 6 3 [] (by decide) (by decide)⟩

/-- C16: for every side count `n` with `1 ≤ n` (and within the range of `int`),
side length `s` and center `(cx, cy)`, `calculatePolygonVertices` returns
exactly `n` points, the `i`-th being
`(cx + s * cos (i * 2π / n), cy + s * sin (i * 2π / n))`, and every returned
vertex lies at Euclidean distance `|s|` from the center. -/
theorem calculatePolygonVertices_spec (numSides : Int) (s cx cy : ℝ)
    (h1 : 1 ≤ numSides) (hmax : numSides ≤ intMax) :
    ((calculatePolygonVertices numSides s (cx, cy)).length : Int) = numSides
    ∧ (∀ i : ℕ, (i : Int) < numSides →
        (calculatePolygonVertices numSides s (cx, cy))[i]?
          = some (cx + s * Real.cos ((i : ℝ) * (2 * Real.pi) / (numSides : ℝ)),
                  cy + s * Real.sin ((i : ℝ) * (2 * Real.pi) / (numSides : ℝ))))
    ∧ (∀ p ∈ calculatePolygonVertices numSides s (cx, cy),
        euclideanDistance p (cx, cy) = |s|) := by
  obtain ⟨k, rfl⟩ := Int.eq_ofNat_of_zero_le (by omega : 0 ≤ numSides)
  have hcount : loopCount (k : Int) = k := by
    rw [loopCount_of_int (k : Int) (by omega) hmax, Int.toNat_ofNat]
  refine ⟨?_, ?_, ?_⟩
  · simp [calculatePolygonVertices, hcount]
  · intro i hi
    have hik : i < k := by exact_mod_cast hi
    simp only [calculatePolygonVertices, hcount, List.getElem?_map,
      List.getElem?_range hik, Option.map_some', Int.cast_natCast, mul_div_assoc]
  · intro p hp
    simp only [calculatePolygonVertices, List.mem_map, List.mem_range] at hp
    obtain ⟨i, _, rfl⟩ := hp
    simp only [euclideanDistance, add_sub_cancel_left, mul_pow]
    rw [← mul_add, Real.cos_sq_add_sin_sq, mul_one, Real.sqrt_sq_eq_abs]

/-- Witness for C16: a hexagon of side 3 around the origin. -/
theorem calculatePolygonVertices_spec_witness :
    ((calculatePolygonVertices 6 3 (0, 0)).length : Int) = 6
    ∧ (calculatePolygonVertices 6 3 (0, 0))[1]?
        = some (0 + 3 * Real.cos (((1 : ℕ) : ℝ) * (2 * Real.pi) / ((6 : Int) : ℝ)),
                0 + 3 * Real.sin (((1 : ℕ) : ℝ) * (2 * Real.pi) / ((6 : Int) : ℝ)))
    ∧ (∀ p ∈ calculatePolygonVertices 6 3 (0, 0), euclideanDistance p (0, 0) = |(3 : ℝ)|) :=
  have h := calculatePolygonVertices_spec 6 3 0 0 (by decide) (by decide)
  ⟨h.1, h.2.1 1 (by decide), h.2.2⟩

/-- C17: on side 6 around the origin `calculateTriangleVertices` places the
apex at `(0, √3)` and the base vertices at `(-3, -√3)` and `(3, -√3)`. The two
base vertices are 6 apart, but the apex is `√21` away from each of them, so the
three points are not the vertices of an equilateral triangle of side 6. -/
theorem calculateTriangleVertices_six :
    calculateTriangleVertices [6, 6, 6] (0, 0)
        = some [(0, Real.sqrt 3), (-3, -Real.sqrt 3), (3, -Real.sqrt 3)]
    ∧ euclideanDistance (-3, -Real.sqrt 3) (3, -Real.sqrt 3) = 6
    ∧ euclideanDistance (0, Real.sqrt 3) (-3, -Real.sqrt 3) = Real.sqrt 21
    ∧ euclideanDistance (0, Real.sqrt 3) (3, -Real.sqrt 3) = Real.sqrt 21
    ∧ Real.sqrt 21 ≠ 6 := by
  have h3 : Real.sqrt 3 ^ 2 = 3 := Real.sq_sqrt (by norm_num)
  refine ⟨?_, ?_, ?_, ?_, ?_⟩
  · simp only [calculateTriangleVertices, List.getElem?_cons_zero, Option.bind_eq_bind,
      Option.some_bind, Option.pure_def, Option.some.injEq]
    norm_num
    ring
  · unfold euclideanDistance
    rw [show ((-3 : ℝ) - 3) ^ 2 + (-Real.sqrt 3 - -Real.sqrt 3) ^ 2 = 6 ^ 2 by ring]
    exact Real.sqrt_sq (by norm_num)
  · simp only [euclideanDistance]
    congr 1
    nlinarith [h3]
  · simp only [euclideanDistance]
    congr 1
    nlinarith [h3]
  · intro h
    have h21 : Real.sqrt 21 ^ 2 = 21 := Real.sq_sqrt (by norm_num)
    rw [h] at h21
    norm_num at h21

end Pyrsolver
